import Mathlib

/-!
Shallow embedding of the startup-simulator transition engine
(src/env/startup_env.py, src/env/business_logic.py, src/env/schemas.py,
src/config/sim_config.py) and proofs about its specification claims.

Python floats are modelled as real numbers, Python ints as integers.
Every call to the random module is modelled by an explicit stream of
uniform draws in [0,1): random.random() reads the next draw, and
random.uniform(a, b) is a + (b - a) * draw, as in CPython.
-/

namespace Startup

/-- A stream of uniform random draws, indexed by consumption order.
Models the module-level random generator of the Python random module. -/
abbrev Rng := ℕ → ℝ

/-- A random stream is valid when every draw lies in [0,1), the range of
random.random(). -/
def ValidRng (g : Rng) : Prop := ∀ n, 0 ≤ g n ∧ g n < 1

/-- random.uniform(a, b) = a + (b - a) * random.random(). -/
noncomputable def uniform (a b u : ℝ) : ℝ := a + (b - a) * u

/-- Python int() applied to a float: truncation toward zero. -/
noncomputable def pyInt (x : ℝ) : ℤ := if 0 ≤ x then ⌊x⌋ else ⌈x⌉

/-- sim_config.MAX_CHURN. -/
def MAX_CHURN : ℝ := 0.30

/-- sim_config.INITIAL_CASH. -/
def INITIAL_CASH : ℝ := 1000000.0

/-- sim_config.BASE_CAC. -/
def BASE_CAC : ℝ := 50.0

/-- sim_config.INITIAL_PRODUCT_QUALITY. -/
def INITIAL_PRODUCT_QUALITY : ℝ := 0.1

/-- env.schemas.EnvState: the full simulation state record. -/
structure EnvState where
  mrr : ℝ
  cash : ℝ
  cac : ℝ
  ltv : ℝ
  churn_enterprise : ℝ
  churn_smb : ℝ
  churn_b2c : ℝ
  interest_rate : ℝ
  consumer_confidence : ℝ
  competitors : ℤ
  product_quality : ℝ
  price : ℝ
  months_elapsed : ℤ
  headcount : ℤ
  valuation_multiple : ℝ
  unemployment : ℝ
  innovation_factor : ℝ
  months_in_depression : ℤ

/-- Marketing channel literal: "ppc" or "brand". -/
inductive Channel where
  | ppc : Channel
  | brand : Channel

/-- env.schemas.MarketingAction. -/
structure MarketingAction where
  spend : ℝ
  channel : Channel

/-- env.schemas.HiringAction. -/
structure HiringAction where
  hires : ℤ
  cost_per_employee : ℝ

/-- env.schemas.ProductAction. -/
structure ProductAction where
  r_and_d_spend : ℝ

/-- env.schemas.PricingAction. -/
structure PricingAction where
  price_change_pct : ℝ

/-- env.schemas.ActionBundle. -/
structure ActionBundle where
  marketing : MarketingAction
  hiring : HiringAction
  product : ProductAction
  pricing : PricingAction

/-- A schema-valid action bundle (the pydantic field constraints). -/
def ValidBundle (a : ActionBundle) : Prop :=
  0 ≤ a.marketing.spend ∧ 0 ≤ a.hiring.hires ∧
  0 ≤ a.hiring.cost_per_employee ∧ 0 ≤ a.product.r_and_d_spend

/-- business_logic.interest_rate_shock, with its single draw u passed in. -/
noncomputable def interest_rate_shock (s : EnvState) (prob u : ℝ) : EnvState :=
  if u < prob then
    { s with interest_rate := s.interest_rate + 1.5,
             valuation_multiple := s.valuation_multiple * 0.85,
             churn_smb := s.churn_smb * 1.2 }
  else s

/-- business_logic.consumer_confidence_shock, with its single draw u passed in. -/
noncomputable def consumer_confidence_shock (s : EnvState) (prob u : ℝ) : EnvState :=
  if u < prob then
    { s with consumer_confidence := s.consumer_confidence - 20,
             unemployment := s.unemployment + 1.0 }
  else s

/-- business_logic.competitive_entry_shock, with its single draw u passed in. -/
noncomputable def competitive_entry_shock (s : EnvState) (prob u : ℝ) : EnvState :=
  let market_attractiveness := (s.mrr - 50000) / 50000
  let dynamic_prob := 1 / (1 + Real.exp (-market_attractiveness))
  let actual_prob := prob * (2 * dynamic_prob)
  if u < actual_prob then
    { s with competitors := s.competitors + 1, price := s.price * 0.9 }
  else s

/-- business_logic.apply_recession_cascade; the draw u is consumed only when
the unemployment/interest-rate condition holds. -/
noncomputable def apply_recession_cascade (s : EnvState) (u : ℝ) : EnvState :=
  if 8.0 < s.unemployment ∧ 7.0 < s.interest_rate then
    if u < 0.2 then
      { s with consumer_confidence := s.consumer_confidence - 10,
               valuation_multiple := s.valuation_multiple * 0.8,
               unemployment := s.unemployment + 0.5 }
    else s
  else s

/-- business_logic.apply_hysteresis. -/
noncomputable def apply_hysteresis (s : EnvState) : EnvState :=
  let s1 :=
    if s.consumer_confidence < 50 then
      { s with months_in_depression := s.months_in_depression + 1 }
    else
      { s with months_in_depression := max 0 (s.months_in_depression - 1) }
  if 6 ≤ s1.months_in_depression then
    { s1 with innovation_factor := s1.innovation_factor * 0.95 }
  else s1

/-- business_logic.apply_recovery. -/
noncomputable def apply_recovery (s : EnvState) : EnvState :=
  let s1 :=
    if s.innovation_factor < 1.0 then
      { s with innovation_factor := s.innovation_factor + 0.001 }
    else s
  let s2 :=
    if s1.valuation_multiple < 10.0 then
      { s1 with valuation_multiple := s1.valuation_multiple + 0.05 }
    else if 10.0 < s1.valuation_multiple then
      { s1 with valuation_multiple := s1.valuation_multiple - 0.05 }
    else s1
  if s2.consumer_confidence < 100 ∧ s2.unemployment < 8.0 then
    { s2 with consumer_confidence := s2.consumer_confidence + 2.0 }
  else s2

/-- business_logic.hill_response. The exponent alpha is a real, so ^ is rpow. -/
noncomputable def hill_response (spend alpha beta gamma : ℝ) : ℝ :=
  if spend ≤ 0 then 0.0
  else beta * spend ^ alpha / (gamma ^ alpha + spend ^ alpha)

/-- business_logic.compute_new_mrr, with the three uniform draws u1 u2 u3
(alpha, gamma, beta, in consumption order) passed in. -/
noncomputable def compute_new_mrr (s : EnvState) (a : MarketingAction)
    (u1 u2 u3 : ℝ) : ℝ :=
  let alpha :=
    match a.channel with
    | Channel.ppc => uniform 0.5 1.0 u1
    | Channel.brand => uniform 1.5 3.0 u1
  let gamma := uniform 15000 50000 u2
  let beta :=
    match a.channel with
    | Channel.ppc => uniform 10000 50000 u3
    | Channel.brand => uniform 50000 100000 u3
  let response := hill_response a.spend alpha beta gamma
  let response :=
    if s.consumer_confidence < 80 then response * 0.85
    else if 120 < s.consumer_confidence then response * 1.08
    else response
  let response :=
    if 10 ≤ s.competitors then response * 0.6
    else if 4 ≤ s.competitors then response * 0.8
    else response
  response

/-- business_logic.compute_churn_rate. -/
noncomputable def compute_churn_rate (s : EnvState) : ℝ :=
  let base := (s.churn_enterprise + s.churn_smb + s.churn_b2c) / 3
  let quality_factor := 1.0 - s.product_quality * 0.5
  let macro_multiplier := if s.consumer_confidence < 80 then 1.0 * 1.3 else 1.0
  let avg_tenure_proxy := max 1 ((s.months_elapsed : ℝ) * 0.4)
  let tenure_decay := Real.exp (-0.15 * avg_tenure_proxy)
  let decay_multiplier := max 0.3 tenure_decay
  base * quality_factor * macro_multiplier * decay_multiplier

/-- business_logic.compute_expansion_mrr. -/
noncomputable def compute_expansion_mrr (s : EnvState) (a : ProductAction) : ℝ :=
  let effective_rnd := a.r_and_d_spend * s.innovation_factor
  let upsell_factor := 1 + min (effective_rnd / 50000) 0.5
  s.mrr * 0.02 * upsell_factor

/-- business_logic.apply_pricing_effect, with the elasticity draw u passed in. -/
noncomputable def apply_pricing_effect (s : EnvState) (a : PricingAction)
    (u : ℝ) : EnvState :=
  let elasticity := uniform (-0.9) (-0.2) u
  let demand_change := elasticity * a.price_change_pct
  { s with price := s.price * (1 + a.price_change_pct),
           mrr := s.mrr * ((1 + a.price_change_pct) * (1 + demand_change)) }

/-- business_logic.apply_hiring_cost. -/
noncomputable def apply_hiring_cost (s : EnvState) (a : HiringAction) : EnvState :=
  let total_cost := (a.hires : ℝ) * a.cost_per_employee
  { s with cash := s.cash - total_cost }

/-- business_logic.compute_cac. -/
noncomputable def compute_cac (marketing_spend new_users : ℝ) : ℝ :=
  if new_users ≤ 0 then 0.0 else marketing_spend / new_users

/-- business_logic.scale_cac_by_macro (renamed to fit lexical rules). -/
noncomputable def scale_cac_by_macro_state (raw_cac : ℝ) (s : EnvState) : ℝ :=
  let modifier := (1.0 : ℝ)
  let modifier := if 5.0 < s.interest_rate then modifier * 1.2 else modifier
  let modifier :=
    if s.consumer_confidence < 80 then modifier * 1.3
    else if 120 < s.consumer_confidence then modifier * 0.8
    else modifier
  let modifier := if 5 < s.competitors then modifier * 1.15 else modifier
  let modifier := if 8 ≤ s.competitors then modifier * 1.3 else modifier
  raw_cac * modifier

/-- business_logic.compute_ltv. -/
noncomputable def compute_ltv (mrr_per_user churn_rate : ℝ) : ℝ :=
  let churn_rate := if churn_rate ≤ 0.001 then 0.001 else churn_rate
  mrr_per_user / churn_rate

/-- business_logic.compute_rule_of_40. -/
noncomputable def compute_rule_of_40 (prev_mrr new_mrr burn : ℝ) : ℝ :=
  let prev_mrr := if prev_mrr ≤ 0 then 1.0 else prev_mrr
  let new_mrr := if new_mrr ≤ 0 then 1.0 else new_mrr
  let growth_pct := (new_mrr - prev_mrr) / prev_mrr * 100
  let margin_pct := -burn / new_mrr * 100
  growth_pct + margin_pct

/-- business_logic.compute_reward. -/
noncomputable def compute_reward (s : EnvState) (rule_of_40 : ℝ) : ℝ :=
  let reward := s.mrr / 1000000
  let reward := if rule_of_40 < 15 then reward - 2 else reward
  let reward := if rule_of_40 < 0 then reward - 5 else reward
  let reward :=
    if 0 < s.cac ∧ 0 < s.ltv then
      let r := s.ltv / s.cac
      if r < 3.0 then (if r < 1.0 then reward - 5.0 - 10.0 else reward - 5.0)
      else reward
    else reward
  let reward := if s.cash ≤ 0 then reward - 20 else reward
  let reward := if s.innovation_factor < 0.8 then reward - 5 else reward
  let reward := if s.valuation_multiple < 5.0 then reward - 2 else reward
  reward

/-- The shock-and-feedback phase of StartupEnv.step (its section 2):
the three exogenous shocks, the recession cascade, hysteresis and recovery.
Returns the resulting state together with the number of random draws
consumed (the cascade draws only when its trigger condition holds). -/
noncomputable def shockPhase (s0 : EnvState) (g : Rng) : EnvState × ℕ :=
  let s1 := interest_rate_shock s0 0.1 (g 0)
  let s2 := consumer_confidence_shock s1 0.1 (g 1)
  let s3 := competitive_entry_shock s2 0.1 (g 2)
  let s4 := apply_recession_cascade s3 (g 3)
  let k : ℕ := if 8.0 < s3.unemployment ∧ 7.0 < s3.interest_rate then 4 else 3
  let s5 := apply_hysteresis s4
  let s6 := apply_recovery s5
  (s6, k)

/-- The result of one StartupEnv.step call, together with every intermediate
quantity of the step pipeline (a trace of the source's local variables). -/
structure StepTrace where
  prev_mrr : ℝ
  postShock : EnvState
  new_mrr : ℝ
  expansion : ℝ
  churn_rate : ℝ
  mrrUpdated : ℝ
  cashAfterCollection : ℝ
  postPricing : EnvState
  hiresApplied : ℤ
  one_time_hiring_cost : ℝ
  salary_burn : ℝ
  total_spend : ℝ
  rule40_burn : ℝ
  rule40 : ℝ
  reward : ℝ
  newState : EnvState
  terminated : Prop
  truncated : Prop
  gOut : Rng

/-- StartupEnv.step: one month of simulation, as a function of the current
state, the (already validated) action bundle and the random stream. -/
noncomputable def stepTrace (s0 : EnvState) (action : ActionBundle) (g : Rng) :
    StepTrace :=
  let prev_mrr := s0.mrr
  let sk := shockPhase s0 g
  let s6 := sk.1
  let k := sk.2
  let new_mrr := compute_new_mrr s6 action.marketing (g k) (g (k+1)) (g (k+2))
  let expansion := compute_expansion_mrr s6 action.product
  let churn_rate := compute_churn_rate s6
  let s7 := { s6 with mrr := s6.mrr * (1 - churn_rate) + new_mrr + expansion }
  let s8 := { s7 with cash := s7.cash + s7.mrr }
  let s9 := apply_pricing_effect s8 action.pricing (g (k+3))
  let hires :=
    if 0 < action.hiring.hires then
      let max_hires := pyInt ((s9.cash / 18.0) / action.hiring.cost_per_employee)
      if max_hires < action.hiring.hires then max_hires else action.hiring.hires
    else action.hiring.hires
  let one_time_hiring_cost := (hires : ℝ) * action.hiring.cost_per_employee
  let s10 := apply_hiring_cost s9
    { hires := hires, cost_per_employee := action.hiring.cost_per_employee }
  let s11 := { s10 with headcount := s10.headcount + hires }
  let salary_burn := (s11.headcount : ℝ) * 8000.0
  let total_spend := action.marketing.spend + action.product.r_and_d_spend
  let s12 := { s11 with cash := s11.cash - (salary_burn + total_spend) }
  let s13 :=
    if 0 < s12.price then
      let estimated_new_users := new_mrr / s12.price
      let raw_cac := compute_cac action.marketing.spend estimated_new_users
      { s12 with cac := scale_cac_by_macro_state raw_cac s12 }
    else s12
  let s14 := { s13 with ltv := compute_ltv s13.price churn_rate }
  let rule40_burn := one_time_hiring_cost + salary_burn + total_spend
  let rule40 := compute_rule_of_40 prev_mrr s14.mrr rule40_burn
  let reward := compute_reward s14 rule40
  let s15 := { s14 with months_elapsed := s14.months_elapsed + 1 }
  { prev_mrr := prev_mrr
    postShock := s6
    new_mrr := new_mrr
    expansion := expansion
    churn_rate := churn_rate
    mrrUpdated := s7.mrr
    cashAfterCollection := s8.cash
    postPricing := s9
    hiresApplied := hires
    one_time_hiring_cost := one_time_hiring_cost
    salary_burn := salary_burn
    total_spend := total_spend
    rule40_burn := rule40_burn
    rule40 := rule40
    reward := reward
    newState := s15
    terminated := s15.cash ≤ 0
    truncated := 120 ≤ s15.months_elapsed
    gOut := fun n => g (n + (k + 4)) }

/-- The state constructed by StartupEnv.reset (its fixed initial values;
fields with pydantic defaults take those defaults). -/
noncomputable def initialState : EnvState :=
  { mrr := 50000
    cash := INITIAL_CASH
    cac := BASE_CAC
    ltv := 7000
    churn_enterprise := 0.01
    churn_smb := 0.03
    churn_b2c := 0.05
    interest_rate := 3.0
    consumer_confidence := 100.0
    competitors := 5
    product_quality := INITIAL_PRODUCT_QUALITY
    price := 50.0
    months_elapsed := 0
    headcount := 1
    valuation_multiple := 10.0
    unemployment := 4.0
    innovation_factor := 1.0
    months_in_depression := 0 }

/-- Run a sequence of steps from a state, threading the random stream,
collecting the successive post-step states. -/
noncomputable def runSteps (s : EnvState) (g : Rng) :
    List ActionBundle → List EnvState
  | [] => []
  | a :: rest =>
      let t := stepTrace s a g
      t.newState :: runSteps t.newState t.gOut rest

/-- StartupEnv.reset followed by a sequence of steps. reset(seed) passes the
seed to gymnasium, which seeds only the environment's np_random generator;
no part of the step pipeline reads np_random - every draw comes from the
module-level random stream g, which reset does not touch. The seed argument
therefore influences nothing that is consumed. -/
noncomputable def resetRun (seed : ℕ) (g : Rng) (acts : List ActionBundle) :
    List EnvState :=
  runSteps initialState g acts

/-- The all-defaults bundle: zero spend on the ppc channel, zero hires at the
default 10000 cost, zero R&D spend, zero price change. -/
noncomputable def noopBundle : ActionBundle :=
  { marketing := { spend := 0.0, channel := Channel.ppc }
    hiring := { hires := 0, cost_per_employee := 10000 }
    product := { r_and_d_spend := 0.0 }
    pricing := { price_change_pct := 0.0 } }

/-- The constant random stream drawing 1/2 forever: no Bernoulli shock with
threshold at most 0.2 fires on it. -/
noncomputable def gHalf : Rng := fun _ => (1 : ℝ) / 2

/-- The constant random stream drawing 0.05 forever: every Bernoulli shock
with threshold 0.1 fires on it. -/
noncomputable def gLow : Rng := fun _ => 0.05

/-- Initial state with all three churn segments zeroed (schema-valid). -/
noncomputable def c2State : EnvState :=
  { initialState with churn_enterprise := 0, churn_smb := 0, churn_b2c := 0 }

/-- No-op bundle except for a +100% price change. -/
noncomputable def c2Action : ActionBundle :=
  { noopBundle with pricing := { price_change_pct := 1.0 } }

/-- Schema-valid state with every churn segment at its maximum 1.0 and
product quality 0. -/
noncomputable def c3State : EnvState :=
  { initialState with churn_enterprise := 1, churn_smb := 1, churn_b2c := 1,
                      product_quality := 0 }

/-- Schema-valid state with zero churn and deeply negative cash (reached by
stepping after overspending: spends are unbounded, cash has no floor). -/
noncomputable def c4State : EnvState :=
  { initialState with churn_enterprise := 0, churn_smb := 0, churn_b2c := 0,
                      cash := -231000 }

/-- Bundle requesting 5 hires at cost 10000 each. -/
noncomputable def c4Action : ActionBundle :=
  { noopBundle with hiring := { hires := 5, cost_per_employee := 10000 } }

/-- Schema-valid bundle requesting 1 hire at cost_per_employee = 0. -/
noncomputable def c5Action : ActionBundle :=
  { noopBundle with hiring := { hires := 1, cost_per_employee := 0 } }

/-- Zero-churn state whose cash at the hiring-clamp point works out to
exactly 360000. -/
noncomputable def c6State : EnvState :=
  { initialState with churn_enterprise := 0, churn_smb := 0, churn_b2c := 0,
                      cash := 309000 }

/-- Bundle requesting 5 hires at cost 10000 each (more than the runway
ceiling of 2 allows at 360000 cash). -/
noncomputable def c6Action : ActionBundle :=
  { noopBundle with hiring := { hires := 5, cost_per_employee := 10000 } }

/-- Zero-churn state with cash = 100. -/
noncomputable def c7State : EnvState :=
  { initialState with churn_enterprise := 0, churn_smb := 0, churn_b2c := 0,
                      cash := 100 }

/-- No-op bundle except for an R&D spend of 200000. -/
noncomputable def c7WitAction : ActionBundle :=
  { noopBundle with product := { r_and_d_spend := 200000 } }

/-- Schema-valid state whose innovation_factor 0.9995 lies strictly between
0.999 and 1. -/
noncomputable def c9State : EnvState :=
  { initialState with innovation_factor := 0.9995 }

/-- No-op bundle except for a -100% price change (schema-valid: the pricing
schema puts no bounds on price_change_pct). -/
noncomputable def c10Action : ActionBundle :=
  { noopBundle with pricing := { price_change_pct := -1 } }

/-- The Rule-of-40 formula as claim C8 words it: prev and new MRR are each
floored at 1.0, i.e. every input below 1.0 is replaced by 1.0. -/
noncomputable def rule_of_40_claimed (prev_mrr new_mrr burn : ℝ) : ℝ :=
  let p1 := max prev_mrr 1
  let n1 := max new_mrr 1
  100 * ((n1 - p1) / p1) + 100 * (-burn / n1)

/-- The Rule-of-40 formula with the floor amended to what the code does:
only nonpositive inputs are replaced by 1.0; positive values below 1.0 are
used as they are. -/
noncomputable def rule_of_40_floor_nonpos (prev_mrr new_mrr burn : ℝ) : ℝ :=
  let p1 := if 0 < prev_mrr then prev_mrr else 1
  let n1 := if 0 < new_mrr then new_mrr else 1
  100 * ((n1 - p1) / p1) + 100 * (-burn / n1)

/-! Checked-division variant of the step: every Python division is modelled
by cdiv, which fails (like Python's ZeroDivisionError) when the denominator
is zero. The pipeline is otherwise identical to stepTrace. -/

/-- Division as Python executes it: an error on a zero denominator. -/
noncomputable def cdiv (x y : ℝ) : Except Unit ℝ :=
  if y = 0 then Except.error () else Except.ok (x / y)

/-- business_logic.competitive_entry_shock with checked divisions. -/
noncomputable def competitive_entry_shockE (s : EnvState) (prob u : ℝ) :
    Except Unit EnvState := do
  let market_attractiveness ← cdiv (s.mrr - 50000) 50000
  let dynamic_prob ← cdiv 1 (1 + Real.exp (-market_attractiveness))
  let actual_prob := prob * (2 * dynamic_prob)
  if u < actual_prob then
    pure { s with competitors := s.competitors + 1, price := s.price * 0.9 }
  else pure s

/-- business_logic.hill_response with a checked division. -/
noncomputable def hill_responseE (spend alpha beta gamma : ℝ) :
    Except Unit ℝ :=
  if spend ≤ 0 then pure 0.0
  else cdiv (beta * spend ^ alpha) (gamma ^ alpha + spend ^ alpha)

/-- business_logic.compute_new_mrr with checked divisions. -/
noncomputable def compute_new_mrrE (s : EnvState) (a : MarketingAction)
    (u1 u2 u3 : ℝ) : Except Unit ℝ := do
  let alpha :=
    match a.channel with
    | Channel.ppc => uniform 0.5 1.0 u1
    | Channel.brand => uniform 1.5 3.0 u1
  let gamma := uniform 15000 50000 u2
  let beta :=
    match a.channel with
    | Channel.ppc => uniform 10000 50000 u3
    | Channel.brand => uniform 50000 100000 u3
  let response ← hill_responseE a.spend alpha beta gamma
  let response :=
    if s.consumer_confidence < 80 then response * 0.85
    else if 120 < s.consumer_confidence then response * 1.08
    else response
  pure (if 10 ≤ s.competitors then response * 0.6
        else if 4 ≤ s.competitors then response * 0.8
        else response)

/-- business_logic.compute_churn_rate with a checked division. -/
noncomputable def compute_churn_rateE (s : EnvState) : Except Unit ℝ := do
  let base ← cdiv (s.churn_enterprise + s.churn_smb + s.churn_b2c) 3
  let quality_factor := 1.0 - s.product_quality * 0.5
  let macro_multiplier := if s.consumer_confidence < 80 then 1.0 * 1.3 else 1.0
  let avg_tenure_proxy := max 1 ((s.months_elapsed : ℝ) * 0.4)
  let tenure_decay := Real.exp (-0.15 * avg_tenure_proxy)
  let decay_multiplier := max 0.3 tenure_decay
  pure (base * quality_factor * macro_multiplier * decay_multiplier)

/-- business_logic.compute_expansion_mrr with a checked division. -/
noncomputable def compute_expansion_mrrE (s : EnvState) (a : ProductAction) :
    Except Unit ℝ := do
  let effective_rnd := a.r_and_d_spend * s.innovation_factor
  let q ← cdiv effective_rnd 50000
  let upsell_factor := 1 + min q 0.5
  pure (s.mrr * 0.02 * upsell_factor)

/-- business_logic.compute_cac with a checked division. -/
noncomputable def compute_cacE (marketing_spend new_users : ℝ) :
    Except Unit ℝ :=
  if new_users ≤ 0 then pure 0.0 else cdiv marketing_spend new_users

/-- business_logic.compute_ltv with a checked division. -/
noncomputable def compute_ltvE (mrr_per_user churn_rate : ℝ) :
    Except Unit ℝ :=
  let churn_rate := if churn_rate ≤ 0.001 then 0.001 else churn_rate
  cdiv mrr_per_user churn_rate

/-- business_logic.compute_rule_of_40 with checked divisions. -/
noncomputable def compute_rule_of_40E (prev_mrr new_mrr burn : ℝ) :
    Except Unit ℝ := do
  let prev_mrr := if prev_mrr ≤ 0 then 1.0 else prev_mrr
  let new_mrr := if new_mrr ≤ 0 then 1.0 else new_mrr
  let g ← cdiv (new_mrr - prev_mrr) prev_mrr
  let growth_pct := g * 100
  let m ← cdiv (-burn) new_mrr
  let margin_pct := m * 100
  pure (growth_pct + margin_pct)

/-- business_logic.compute_reward with checked divisions. -/
noncomputable def compute_rewardE (s : EnvState) (rule_of_40 : ℝ) :
    Except Unit ℝ := do
  let reward ← cdiv s.mrr 1000000
  let reward := if rule_of_40 < 15 then reward - 2 else reward
  let reward := if rule_of_40 < 0 then reward - 5 else reward
  let reward ←
    if 0 < s.cac ∧ 0 < s.ltv then do
      let r ← cdiv s.ltv s.cac
      pure (if r < 3.0 then (if r < 1.0 then reward - 5.0 - 10.0 else reward - 5.0)
            else reward)
    else pure reward
  let reward := if s.cash ≤ 0 then reward - 20 else reward
  let reward := if s.innovation_factor < 0.8 then reward - 5 else reward
  pure (if s.valuation_multiple < 5.0 then reward - 2 else reward)

/-- The shock-and-feedback phase with checked divisions. -/
noncomputable def shockPhaseE (s0 : EnvState) (g : Rng) :
    Except Unit (EnvState × ℕ) := do
  let s1 := interest_rate_shock s0 0.1 (g 0)
  let s2 := consumer_confidence_shock s1 0.1 (g 1)
  let s3 ← competitive_entry_shockE s2 0.1 (g 2)
  let s4 := apply_recession_cascade s3 (g 3)
  let k : ℕ := if 8.0 < s3.unemployment ∧ 7.0 < s3.interest_rate then 4 else 3
  let s5 := apply_hysteresis s4
  let s6 := apply_recovery s5
  pure (s6, k)

/-- StartupEnv.step with every Python division checked: it errors exactly
where the Python code would raise ZeroDivisionError, and otherwise returns
the same trace as stepTrace. -/
noncomputable def stepE (s0 : EnvState) (action : ActionBundle) (g : Rng) :
    Except Unit StepTrace := do
  let prev_mrr := s0.mrr
  let sk ← shockPhaseE s0 g
  let s6 := sk.1
  let k := sk.2
  let new_mrr ← compute_new_mrrE s6 action.marketing (g k) (g (k+1)) (g (k+2))
  let expansion ← compute_expansion_mrrE s6 action.product
  let churn_rate ← compute_churn_rateE s6
  let s7 := { s6 with mrr := s6.mrr * (1 - churn_rate) + new_mrr + expansion }
  let s8 := { s7 with cash := s7.cash + s7.mrr }
  let s9 := apply_pricing_effect s8 action.pricing (g (k+3))
  let hires ←
    if 0 < action.hiring.hires then do
      let q1 ← cdiv s9.cash 18.0
      let q2 ← cdiv q1 action.hiring.cost_per_employee
      let max_hires := pyInt q2
      pure (if max_hires < action.hiring.hires then max_hires
            else action.hiring.hires)
    else pure action.hiring.hires
  let one_time_hiring_cost := (hires : ℝ) * action.hiring.cost_per_employee
  let s10 := apply_hiring_cost s9
    { hires := hires, cost_per_employee := action.hiring.cost_per_employee }
  let s11 := { s10 with headcount := s10.headcount + hires }
  let salary_burn := (s11.headcount : ℝ) * 8000.0
  let total_spend := action.marketing.spend + action.product.r_and_d_spend
  let s12 := { s11 with cash := s11.cash - (salary_burn + total_spend) }
  let s13 ←
    if 0 < s12.price then do
      let estimated_new_users ← cdiv new_mrr s12.price
      let raw_cac ← compute_cacE action.marketing.spend estimated_new_users
      pure { s12 with cac := scale_cac_by_macro_state raw_cac s12 }
    else pure s12
  let ltvNew ← compute_ltvE s13.price churn_rate
  let s14 := { s13 with ltv := ltvNew }
  let rule40_burn := one_time_hiring_cost + salary_burn + total_spend
  let rule40 ← compute_rule_of_40E prev_mrr s14.mrr rule40_burn
  let reward ← compute_rewardE s14 rule40
  let s15 := { s14 with months_elapsed := s14.months_elapsed + 1 }
  pure
    { prev_mrr := prev_mrr
      postShock := s6
      new_mrr := new_mrr
      expansion := expansion
      churn_rate := churn_rate
      mrrUpdated := s7.mrr
      cashAfterCollection := s8.cash
      postPricing := s9
      hiresApplied := hires
      one_time_hiring_cost := one_time_hiring_cost
      salary_burn := salary_burn
      total_spend := total_spend
      rule40_burn := rule40_burn
      rule40 := rule40
      reward := reward
      newState := s15
      terminated := s15.cash ≤ 0
      truncated := 120 ≤ s15.months_elapsed
      gOut := fun n => g (n + (k + 4)) }

/-! Field-preservation lemmas: which state fields each transition function
leaves untouched. -/

@[simp] theorem interest_rate_shock_cash (s : EnvState) (p u : ℝ) :
    (interest_rate_shock s p u).cash = s.cash := by
  simp only [interest_rate_shock]; split_ifs <;> rfl

@[simp] theorem interest_rate_shock_headcount (s : EnvState) (p u : ℝ) :
    (interest_rate_shock s p u).headcount = s.headcount := by
  simp only [interest_rate_shock]; split_ifs <;> rfl

@[simp] theorem interest_rate_shock_cac (s : EnvState) (p u : ℝ) :
    (interest_rate_shock s p u).cac = s.cac := by
  simp only [interest_rate_shock]; split_ifs <;> rfl

@[simp] theorem consumer_confidence_shock_cash (s : EnvState) (p u : ℝ) :
    (consumer_confidence_shock s p u).cash = s.cash := by
  simp only [consumer_confidence_shock]; split_ifs <;> rfl

@[simp] theorem consumer_confidence_shock_headcount (s : EnvState) (p u : ℝ) :
    (consumer_confidence_shock s p u).headcount = s.headcount := by
  simp only [consumer_confidence_shock]; split_ifs <;> rfl

@[simp] theorem consumer_confidence_shock_cac (s : EnvState) (p u : ℝ) :
    (consumer_confidence_shock s p u).cac = s.cac := by
  simp only [consumer_confidence_shock]; split_ifs <;> rfl

@[simp] theorem competitive_entry_shock_cash (s : EnvState) (p u : ℝ) :
    (competitive_entry_shock s p u).cash = s.cash := by
  simp only [competitive_entry_shock]; split_ifs <;> rfl

@[simp] theorem competitive_entry_shock_headcount (s : EnvState) (p u : ℝ) :
    (competitive_entry_shock s p u).headcount = s.headcount := by
  simp only [competitive_entry_shock]; split_ifs <;> rfl

@[simp] theorem competitive_entry_shock_cac (s : EnvState) (p u : ℝ) :
    (competitive_entry_shock s p u).cac = s.cac := by
  simp only [competitive_entry_shock]; split_ifs <;> rfl

@[simp] theorem apply_recession_cascade_cash (s : EnvState) (u : ℝ) :
    (apply_recession_cascade s u).cash = s.cash := by
  simp only [apply_recession_cascade]; split_ifs <;> rfl

@[simp] theorem apply_recession_cascade_headcount (s : EnvState) (u : ℝ) :
    (apply_recession_cascade s u).headcount = s.headcount := by
  simp only [apply_recession_cascade]; split_ifs <;> rfl

@[simp] theorem apply_recession_cascade_cac (s : EnvState) (u : ℝ) :
    (apply_recession_cascade s u).cac = s.cac := by
  simp only [apply_recession_cascade]; split_ifs <;> rfl

@[simp] theorem apply_hysteresis_cash (s : EnvState) :
    (apply_hysteresis s).cash = s.cash := by
  simp only [apply_hysteresis]; split_ifs <;> rfl

@[simp] theorem apply_hysteresis_headcount (s : EnvState) :
    (apply_hysteresis s).headcount = s.headcount := by
  simp only [apply_hysteresis]; split_ifs <;> rfl

@[simp] theorem apply_hysteresis_cac (s : EnvState) :
    (apply_hysteresis s).cac = s.cac := by
  simp only [apply_hysteresis]; split_ifs <;> rfl

@[simp] theorem apply_recovery_cash (s : EnvState) :
    (apply_recovery s).cash = s.cash := by
  simp only [apply_recovery]; split_ifs <;> rfl

@[simp] theorem apply_recovery_headcount (s : EnvState) :
    (apply_recovery s).headcount = s.headcount := by
  simp only [apply_recovery]; split_ifs <;> rfl

@[simp] theorem apply_recovery_cac (s : EnvState) :
    (apply_recovery s).cac = s.cac := by
  simp only [apply_recovery]; split_ifs <;> rfl

@[simp] theorem apply_pricing_effect_cash (s : EnvState) (a : PricingAction)
    (u : ℝ) : (apply_pricing_effect s a u).cash = s.cash := rfl

@[simp] theorem apply_pricing_effect_headcount (s : EnvState)
    (a : PricingAction) (u : ℝ) :
    (apply_pricing_effect s a u).headcount = s.headcount := rfl

@[simp] theorem apply_pricing_effect_cac (s : EnvState) (a : PricingAction)
    (u : ℝ) : (apply_pricing_effect s a u).cac = s.cac := rfl

@[simp] theorem apply_hiring_cost_headcount (s : EnvState) (a : HiringAction) :
    (apply_hiring_cost s a).headcount = s.headcount := rfl

@[simp] theorem apply_hiring_cost_cac (s : EnvState) (a : HiringAction) :
    (apply_hiring_cost s a).cac = s.cac := rfl

@[simp] theorem apply_hiring_cost_price (s : EnvState) (a : HiringAction) :
    (apply_hiring_cost s a).price = s.price := rfl

@[simp] theorem apply_hiring_cost_cash (s : EnvState) (a : HiringAction) :
    (apply_hiring_cost s a).cash = s.cash - (a.hires : ℝ) * a.cost_per_employee :=
  rfl

@[simp] theorem shockPhase_cash (s : EnvState) (g : Rng) :
    (shockPhase s g).1.cash = s.cash := by
  simp [shockPhase]

@[simp] theorem shockPhase_headcount (s : EnvState) (g : Rng) :
    (shockPhase s g).1.headcount = s.headcount := by
  simp [shockPhase]

@[simp] theorem shockPhase_cac (s : EnvState) (g : Rng) :
    (shockPhase s g).1.cac = s.cac := by
  simp [shockPhase]

/-! General structural lemmas about one step. -/

/-- Cash bookkeeping of one step: the new cash balance is the old one, plus
the MRR standing at the collection point, minus the step's total burn
(one-time hiring cost + salaries + marketing and R&D spend). -/
theorem stepTrace_newState_cash (s : EnvState) (a : ActionBundle) (g : Rng) :
    (stepTrace s a g).newState.cash =
      s.cash + (stepTrace s a g).mrrUpdated - (stepTrace s a g).rule40_burn := by
  simp only [stepTrace, apply_ite EnvState.cash, ite_self, apply_hiring_cost_cash,
    apply_pricing_effect_cash, shockPhase_cash]
  ring

/-- Headcount bookkeeping of one step: the new headcount is the old one plus
the number of hires actually applied after the CFO clamp. -/
theorem stepTrace_newState_headcount (s : EnvState) (a : ActionBundle)
    (g : Rng) :
    (stepTrace s a g).newState.headcount =
      s.headcount + (stepTrace s a g).hiresApplied := by
  simp only [stepTrace, apply_ite EnvState.headcount, ite_self,
    apply_hiring_cost_headcount, apply_pricing_effect_headcount,
    shockPhase_headcount]

@[simp] theorem consumer_confidence_shock_interest_rate (s : EnvState)
    (p u : ℝ) :
    (consumer_confidence_shock s p u).interest_rate = s.interest_rate := by
  simp only [consumer_confidence_shock]; split_ifs <;> rfl

@[simp] theorem competitive_entry_shock_interest_rate (s : EnvState)
    (p u : ℝ) :
    (competitive_entry_shock s p u).interest_rate = s.interest_rate := by
  simp only [competitive_entry_shock]; split_ifs <;> rfl

@[simp] theorem apply_recession_cascade_interest_rate (s : EnvState) (u : ℝ) :
    (apply_recession_cascade s u).interest_rate = s.interest_rate := by
  simp only [apply_recession_cascade]; split_ifs <;> rfl

@[simp] theorem apply_hysteresis_interest_rate (s : EnvState) :
    (apply_hysteresis s).interest_rate = s.interest_rate := by
  simp only [apply_hysteresis]; split_ifs <;> rfl

@[simp] theorem apply_recovery_interest_rate (s : EnvState) :
    (apply_recovery s).interest_rate = s.interest_rate := by
  simp only [apply_recovery]; split_ifs <;> rfl

@[simp] theorem apply_pricing_effect_interest_rate (s : EnvState)
    (a : PricingAction) (u : ℝ) :
    (apply_pricing_effect s a u).interest_rate = s.interest_rate := rfl

@[simp] theorem apply_hiring_cost_interest_rate (s : EnvState)
    (a : HiringAction) :
    (apply_hiring_cost s a).interest_rate = s.interest_rate := rfl

/-- Within one step, the interest rate is written only by the interest-rate
shock (the first random trial of the step). -/
theorem stepTrace_newState_interest_rate (s : EnvState) (a : ActionBundle)
    (g : Rng) :
    (stepTrace s a g).newState.interest_rate =
      (interest_rate_shock s 0.1 (g 0)).interest_rate := by
  simp only [stepTrace, shockPhase, apply_ite EnvState.interest_rate, ite_self,
    apply_hiring_cost_interest_rate, apply_pricing_effect_interest_rate,
    apply_recovery_interest_rate, apply_hysteresis_interest_rate,
    apply_recession_cascade_interest_rate, competitive_entry_shock_interest_rate,
    consumer_confidence_shock_interest_rate]

@[simp] theorem apply_pricing_effect_price (s : EnvState) (a : PricingAction)
    (u : ℝ) :
    (apply_pricing_effect s a u).price = s.price * (1 + a.price_change_pct) :=
  rfl

/-- The LTV field after a step is always recomputed, from the post-pricing
price and the step's churn rate. -/
theorem stepTrace_newState_ltv (s : EnvState) (a : ActionBundle) (g : Rng) :
    (stepTrace s a g).newState.ltv =
      compute_ltv (stepTrace s a g).postPricing.price
        (stepTrace s a g).churn_rate := by
  simp only [stepTrace, apply_ite EnvState.price, ite_self,
    apply_hiring_cost_price]

/-- When the post-pricing price is not positive, the CAC field is carried
over unchanged from before the step. -/
theorem stepTrace_newState_cac_stale (s : EnvState) (a : ActionBundle)
    (g : Rng) (h : (stepTrace s a g).postPricing.price ≤ 0) :
    (stepTrace s a g).newState.cac = s.cac := by
  simp only [stepTrace, apply_hiring_cost_price] at h ⊢
  rw [if_neg (by simpa using not_lt.mpr h)]
  simp only [apply_hiring_cost_cac, apply_pricing_effect_cac, shockPhase_cac]

/-- A step terminates exactly when the post-step cash balance is ≤ 0. -/
theorem stepTrace_terminated_iff (s : EnvState) (a : ActionBundle) (g : Rng) :
    (stepTrace s a g).terminated ↔ (stepTrace s a g).newState.cash ≤ 0 :=
  Iff.rfl

/-- The one-time hiring cost of a step is the applied hires times the cost
per employee. -/
theorem stepTrace_one_time (s : EnvState) (a : ActionBundle) (g : Rng) :
    (stepTrace s a g).one_time_hiring_cost =
      ((stepTrace s a g).hiresApplied : ℝ) * a.hiring.cost_per_employee := rfl

/-- Hysteresis either leaves the innovation factor unchanged or multiplies
it by 0.95. -/
theorem hys_innovation (s : EnvState) :
    (apply_hysteresis s).innovation_factor = s.innovation_factor ∨
    (apply_hysteresis s).innovation_factor = s.innovation_factor * 0.95 := by
  simp only [apply_hysteresis]; split_ifs <;> simp

/-- Recovery adds 0.001 to the innovation factor exactly when it is below
1.0, and leaves it unchanged otherwise. -/
theorem rec_innovation (s : EnvState) :
    (apply_recovery s).innovation_factor =
      if s.innovation_factor < 1.0 then s.innovation_factor + 0.001
      else s.innovation_factor := by
  simp only [apply_recovery]; split_ifs <;> rfl

/-! Equivalence of the checked-division step with the total-division step:
each checked component returns ok of the corresponding total value whenever
its denominators are provably nonzero. -/

theorem cdiv_ok {y : ℝ} (x : ℝ) (h : y ≠ 0) : cdiv x y = Except.ok (x / y) := by
  simp [cdiv, h]

theorem cdiv_zero (x : ℝ) : cdiv x 0 = Except.error () := by
  simp [cdiv]

@[simp] theorem pure_eq_ok {α : Type} (a : α) :
    (pure a : Except Unit α) = Except.ok a := rfl

@[simp] theorem ok_bind {α β : Type} (a : α) (f : α → Except Unit β) :
    (Except.ok a : Except Unit α) >>= f = f a := rfl

@[simp] theorem error_bind {α β : Type} (f : α → Except Unit β) :
    (Except.error () : Except Unit α) >>= f = Except.error () := rfl

theorem competitive_entry_shockE_ok (s : EnvState) (p u : ℝ) :
    competitive_entry_shockE s p u =
      Except.ok (competitive_entry_shock s p u) := by
  have h2 : (1 + Real.exp (-((s.mrr - 50000) / 50000))) ≠ 0 := by positivity
  rw [competitive_entry_shockE, cdiv_ok _ (by norm_num : (50000:ℝ) ≠ 0)]
  simp only [ok_bind]
  rw [cdiv_ok _ h2]
  simp only [ok_bind]
  rw [competitive_entry_shock]
  split_ifs <;> rfl

theorem shockPhaseE_ok (s0 : EnvState) (g : Rng) :
    shockPhaseE s0 g = Except.ok (shockPhase s0 g) := by
  rw [shockPhaseE, competitive_entry_shockE_ok]
  simp only [ok_bind]
  rw [shockPhase]
  rfl

theorem hill_responseE_ok (spend alpha beta gamma : ℝ) (hg : 0 ≤ gamma) :
    hill_responseE spend alpha beta gamma =
      Except.ok (hill_response spend alpha beta gamma) := by
  rw [hill_responseE, hill_response]
  split_ifs with h
  · rfl
  · have hs : 0 < spend := not_le.mp h
    have hden : 0 < gamma ^ alpha + spend ^ alpha := by
      have h1 : (0:ℝ) ≤ gamma ^ alpha := Real.rpow_nonneg hg alpha
      have h2 : (0:ℝ) < spend ^ alpha := Real.rpow_pos_of_pos hs alpha
      linarith
    exact cdiv_ok _ (ne_of_gt hden)

theorem compute_new_mrrE_ok {u2 : ℝ} (hu2 : 0 ≤ u2) (s : EnvState)
    (a : MarketingAction) (u1 u3 : ℝ) :
    compute_new_mrrE s a u1 u2 u3 =
      Except.ok (compute_new_mrr s a u1 u2 u3) := by
  have hg : (0:ℝ) ≤ uniform 15000 50000 u2 := by
    rw [uniform]
    have h : (0:ℝ) ≤ (50000 - 15000) * u2 := by
      apply mul_nonneg _ hu2
      norm_num
    linarith
  rw [compute_new_mrrE, compute_new_mrr, hill_responseE_ok _ _ _ _ hg]
  simp only [ok_bind]
  rfl

theorem compute_churn_rateE_ok (s : EnvState) :
    compute_churn_rateE s = Except.ok (compute_churn_rate s) := by
  rw [compute_churn_rateE, cdiv_ok _ (by norm_num : (3:ℝ) ≠ 0)]
  simp only [ok_bind]
  rw [compute_churn_rate]
  rfl

theorem compute_expansion_mrrE_ok (s : EnvState) (a : ProductAction) :
    compute_expansion_mrrE s a = Except.ok (compute_expansion_mrr s a) := by
  rw [compute_expansion_mrrE, cdiv_ok _ (by norm_num : (50000:ℝ) ≠ 0)]
  simp only [ok_bind]
  rw [compute_expansion_mrr]
  rfl

theorem compute_cacE_ok (ms nu : ℝ) :
    compute_cacE ms nu = Except.ok (compute_cac ms nu) := by
  rw [compute_cacE, compute_cac]
  split_ifs with h
  · rfl
  · exact cdiv_ok _ (ne_of_gt (not_le.mp h))

theorem compute_ltvE_ok (m c : ℝ) :
    compute_ltvE m c = Except.ok (compute_ltv m c) := by
  rw [compute_ltvE, compute_ltv]
  split_ifs with h
  · exact cdiv_ok _ (by norm_num)
  · have hc : (0:ℝ) < c := lt_trans (by norm_num) (not_le.mp h)
    exact cdiv_ok _ (ne_of_gt hc)

theorem compute_rule_of_40E_ok (p n b : ℝ) :
    compute_rule_of_40E p n b = Except.ok (compute_rule_of_40 p n b) := by
  have hp : (if p ≤ 0 then (1.0:ℝ) else p) ≠ 0 := by
    split_ifs with h
    · norm_num
    · exact ne_of_gt (not_le.mp h)
  have hn : (if n ≤ 0 then (1.0:ℝ) else n) ≠ 0 := by
    split_ifs with h
    · norm_num
    · exact ne_of_gt (not_le.mp h)
  rw [compute_rule_of_40E, compute_rule_of_40]
  rw [cdiv_ok _ hp]
  simp only [ok_bind]
  rw [cdiv_ok _ hn]
  simp only [ok_bind]
  rfl

theorem compute_rewardE_ok (s : EnvState) (r40 : ℝ) :
    compute_rewardE s r40 = Except.ok (compute_reward s r40) := by
  rw [compute_rewardE, compute_reward, cdiv_ok _ (by norm_num : (1000000:ℝ) ≠ 0)]
  simp only [ok_bind]
  by_cases h : 0 < s.cac ∧ 0 < s.ltv
  · simp only [if_pos h]
    rw [cdiv_ok _ (ne_of_gt h.1)]
    simp only [ok_bind, pure_eq_ok]
  · simp only [if_neg h]
    simp only [pure_eq_ok, ok_bind]

theorem guard_hires_ok (h : HiringAction)
    (hok : h.hires ≤ 0 ∨ h.cost_per_employee ≠ 0) (c : ℝ) :
    (if 0 < h.hires then
        cdiv c 18.0 >>= fun q1 =>
          cdiv q1 h.cost_per_employee >>= fun q2 =>
            Except.ok (if pyInt q2 < h.hires then pyInt q2 else h.hires)
      else Except.ok h.hires) =
    Except.ok (if 0 < h.hires then
        (if pyInt (c / 18.0 / h.cost_per_employee) < h.hires then
          pyInt (c / 18.0 / h.cost_per_employee) else h.hires)
      else h.hires) := by
  by_cases hp : 0 < h.hires
  · have hcpe : h.cost_per_employee ≠ 0 := by
      rcases hok with h1 | h1
      · exact absurd hp (not_lt.mpr h1)
      · exact h1
    simp only [if_pos hp]
    rw [cdiv_ok _ (by norm_num : (18.0:ℝ) ≠ 0)]
    simp only [ok_bind]
    rw [cdiv_ok _ hcpe]
    simp only [ok_bind]
  · simp only [if_neg hp]

theorem guard_cac_ok (s12 : EnvState) (nm ms : ℝ) :
    (if 0 < s12.price then
        cdiv nm s12.price >>= fun estimated_new_users =>
          compute_cacE ms estimated_new_users >>= fun raw_cac =>
            Except.ok { s12 with cac := scale_cac_by_macro_state raw_cac s12 }
      else Except.ok s12) =
    Except.ok (if 0 < s12.price then
        { s12 with cac := scale_cac_by_macro_state (compute_cac ms (nm / s12.price)) s12 }
      else s12) := by
  by_cases hpr : 0 < s12.price
  · simp only [if_pos hpr]
    rw [cdiv_ok _ (ne_of_gt hpr)]
    simp only [ok_bind]
    rw [compute_cacE_ok]
    simp only [ok_bind]
  · simp only [if_neg hpr]

/-! Claim theorems. -/

/-- Claim C1 (refuted as stated; code bug): reset(seed) seeds only the
np_random generator, which nothing in the step pipeline reads; all draws
come from the module-level random stream, which reset leaves untouched. Two
runs with the identical seed 0 and identical no-op bundles diverge when
that stream differs: with draws 0.05 the interest-rate shock fires (rate
4.5 after one step), with draws 0.5 nothing fires (rate 3.0). -/
theorem c1_seed_determinism_fails :
    (stepTrace initialState noopBundle gLow).newState.interest_rate = 4.5 ∧
    (stepTrace initialState noopBundle gHalf).newState.interest_rate = 3.0 ∧
    resetRun 0 gLow [noopBundle] ≠ resetRun 0 gHalf [noopBundle] := by
  have h1 : (stepTrace initialState noopBundle gLow).newState.interest_rate
      = 4.5 := by
    rw [stepTrace_newState_interest_rate]
    norm_num [interest_rate_shock, gLow, initialState]
  have h2 : (stepTrace initialState noopBundle gHalf).newState.interest_rate
      = 3.0 := by
    rw [stepTrace_newState_interest_rate]
    norm_num [interest_rate_shock, gHalf, initialState]
  refine ⟨h1, h2, ?_⟩
  intro hEq
  have h3 : (stepTrace initialState noopBundle gLow).newState =
      (stepTrace initialState noopBundle gHalf).newState := by
    have h4 := congrArg List.head? hEq
    simpa [resetRun, runSteps] using h4
  have h5 := congrArg EnvState.interest_rate h3
  rw [h1, h2] at h5
  norm_num at h5

/-- Claim C2 (refuted as stated; code bug): the amount credited to cash is
the pre-pricing MRR, not the final post-pricing MRR. From a zero-churn
initial state with a +100% price change (elasticity draw -0.55), the step
credits 51000 (cash goes from 1000000 to 1051000 at collection), while the
post-pricing MRR of the step is 45900 - so the credited amount is not the
final MRR, contradicting the claim and the code's own comments. -/
theorem c2_cash_credited_prepricing :
    (stepTrace c2State c2Action gHalf).cashAfterCollection - c2State.cash
      = (stepTrace c2State c2Action gHalf).mrrUpdated ∧
    (stepTrace c2State c2Action gHalf).mrrUpdated = 51000 ∧
    (stepTrace c2State c2Action gHalf).newState.mrr = 45900 ∧
    (stepTrace c2State c2Action gHalf).cashAfterCollection - c2State.cash
      ≠ (stepTrace c2State c2Action gHalf).newState.mrr := by
  refine ⟨?_, ?_, ?_, ?_⟩ <;>
  norm_num [stepTrace, shockPhase, interest_rate_shock,
    consumer_confidence_shock, competitive_entry_shock,
    apply_recession_cascade, apply_hysteresis, apply_recovery,
    compute_new_mrr, hill_response, compute_expansion_mrr, compute_churn_rate,
    apply_pricing_effect, apply_hiring_cost, uniform, pyInt, gHalf, c2State,
    c2Action, noopBundle, initialState, INITIAL_CASH, BASE_CAC,
    INITIAL_PRODUCT_QUALITY, Real.exp_zero]

/-- Claim C3, counterexample: at the schema-valid state with all three
segment churn rates 1.0, product quality 0, confidence 100 and month 0,
compute_churn_rate returns exp(-0.15) which is at least 0.85, strictly
above MAX_CHURN = 0.30: the output is not bounded by MAX_CHURN. -/
theorem c3_churn_exceeds_max_churn_cex :
    MAX_CHURN < compute_churn_rate c3State := by
  rw [compute_churn_rate]
  norm_num [c3State, initialState, INITIAL_PRODUCT_QUALITY, MAX_CHURN]
  have h := Real.add_one_le_exp ((-(3/20)) : ℝ)
  linarith

/-- Claim C3, amended: for every state with segment churn rates in [0,1],
product quality in [0,1], price ≥ 0 and months_elapsed ≥ 0, the churn rate
lies in [0, 1.3 * exp(-0.15)] (about 1.12); the MAX_CHURN constant is never
applied by the code. -/
theorem c3_churn_rate_bounds_amended (s : EnvState)
    (h1 : 0 ≤ s.churn_enterprise) (h2 : s.churn_enterprise ≤ 1)
    (h3 : 0 ≤ s.churn_smb) (h4 : s.churn_smb ≤ 1)
    (h5 : 0 ≤ s.churn_b2c) (h6 : s.churn_b2c ≤ 1)
    (h7 : 0 ≤ s.product_quality) (h8 : s.product_quality ≤ 1)
    (h9 : 0 ≤ s.price) (h10 : 0 ≤ s.months_elapsed) :
    0 ≤ compute_churn_rate s ∧
      compute_churn_rate s ≤ 1.3 * Real.exp (-0.15) := by
  rw [compute_churn_rate]
  have hb0 : 0 ≤ (s.churn_enterprise + s.churn_smb + s.churn_b2c) / 3 := by
    positivity
  have hb1 : (s.churn_enterprise + s.churn_smb + s.churn_b2c) / 3 ≤ 1 := by
    rw [div_le_one (by norm_num : (0:ℝ) < 3)]; linarith
  have hq0 : (0:ℝ) ≤ 1.0 - s.product_quality * 0.5 := by linarith
  have hq1 : (1.0:ℝ) - s.product_quality * 0.5 ≤ 1 := by linarith
  have hm0 : (0:ℝ) ≤
      (if s.consumer_confidence < 80 then 1.0 * 1.3 else 1.0) := by
    split_ifs <;> norm_num
  have hm1 : (if s.consumer_confidence < 80 then 1.0 * 1.3 else 1.0)
      ≤ (1.3:ℝ) := by
    split_ifs <;> norm_num
  have hd0 : (0:ℝ) ≤
      max 0.3 (Real.exp (-0.15 * max 1 ((s.months_elapsed : ℝ) * 0.4))) :=
    le_trans (by norm_num) (le_max_left _ _)
  have hd1 : max 0.3 (Real.exp (-0.15 * max 1 ((s.months_elapsed : ℝ) * 0.4)))
      ≤ Real.exp (-0.15) := by
    apply max_le
    · have h := Real.add_one_le_exp ((-0.15) : ℝ); linarith
    · apply Real.exp_le_exp.mpr
      have hp : (1:ℝ) ≤ max 1 ((s.months_elapsed : ℝ) * 0.4) := le_max_left _ _
      nlinarith
  constructor
  · exact mul_nonneg (mul_nonneg (mul_nonneg hb0 hq0) hm0) hd0
  · calc (s.churn_enterprise + s.churn_smb + s.churn_b2c) / 3 *
        (1.0 - s.product_quality * 0.5) *
        (if s.consumer_confidence < 80 then 1.0 * 1.3 else 1.0) *
        max 0.3 (Real.exp (-0.15 * max 1 ((s.months_elapsed : ℝ) * 0.4)))
        ≤ 1 * 1 * 1.3 * Real.exp (-0.15) := by
          apply mul_le_mul _ hd1 hd0 (by norm_num)
          apply mul_le_mul _ hm1 hm0 (by norm_num)
          apply mul_le_mul hb1 hq1 hq0 (by norm_num)
      _ = 1.3 * Real.exp (-0.15) := by ring

/-- Witness for the amended C3 bound at the concrete state c3State. -/
theorem c3_churn_rate_bounds_amended_witness :
    (0 ≤ c3State.churn_enterprise ∧ c3State.churn_enterprise ≤ 1 ∧
     0 ≤ c3State.churn_smb ∧ c3State.churn_smb ≤ 1 ∧
     0 ≤ c3State.churn_b2c ∧ c3State.churn_b2c ≤ 1 ∧
     0 ≤ c3State.product_quality ∧ c3State.product_quality ≤ 1 ∧
     0 ≤ c3State.price ∧ 0 ≤ c3State.months_elapsed) ∧
    (0 ≤ compute_churn_rate c3State ∧
      compute_churn_rate c3State ≤ 1.3 * Real.exp (-0.15)) := by
  refine ⟨⟨?_, ?_, ?_, ?_, ?_, ?_, ?_, ?_, ?_, ?_⟩,
    c3_churn_rate_bounds_amended c3State ?_ ?_ ?_ ?_ ?_ ?_ ?_ ?_ ?_ ?_⟩ <;>
    norm_num [c3State, initialState, INITIAL_PRODUCT_QUALITY]

/-- Claim C4 (refuted as stated; code bug): from a schema-valid state with
deeply negative cash, the CFO clamp computes a negative max_hires (-1 here,
since int() truncates toward zero), assigns it as the applied hires, and
headcount falls from 1 to 0, violating the schema's headcount ≥ 1 bound and
decreasing within the step. -/
theorem c4_headcount_drops_below_one :
    c4State.headcount = 1 ∧
    (stepTrace c4State c4Action gHalf).hiresApplied = -1 ∧
    (stepTrace c4State c4Action gHalf).newState.headcount = 0 := by
  refine ⟨rfl, ?_, ?_⟩ <;>
  norm_num [stepTrace, shockPhase, interest_rate_shock,
    consumer_confidence_shock, competitive_entry_shock,
    apply_recession_cascade, apply_hysteresis, apply_recovery,
    compute_new_mrr, hill_response, compute_expansion_mrr, compute_churn_rate,
    apply_pricing_effect, apply_hiring_cost, uniform, pyInt, gHalf, c4State,
    c4Action, noopBundle, initialState, INITIAL_CASH, BASE_CAC,
    INITIAL_PRODUCT_QUALITY, Real.exp_zero, Int.ceil_neg, Int.floor_one,
    Int.ceil_one, Int.floor_neg, Int.floor_ofNat, Int.ceil_ofNat]

/-- Claim C5, counterexample: the hiring-ceiling division is not guarded.
With the schema-valid bundle requesting 1 hire at cost_per_employee = 0,
the checked-division step hits (cash / 18) / 0 and errors, i.e. the Python
step raises ZeroDivisionError. -/
theorem c5_step_div_by_zero_cex :
    stepE initialState c5Action gHalf = Except.error () := by
  rw [stepE, shockPhaseE_ok]
  simp only [ok_bind]
  have hu : (0:ℝ) ≤ gHalf ((shockPhase initialState gHalf).2 + 1) := by
    norm_num [gHalf]
  rw [compute_new_mrrE_ok hu]
  simp only [ok_bind]
  rw [compute_expansion_mrrE_ok]
  simp only [ok_bind]
  rw [compute_churn_rateE_ok]
  simp only [ok_bind]
  have hh : (0:ℤ) < c5Action.hiring.hires := by norm_num [c5Action, noopBundle]
  rw [if_pos hh]
  rw [cdiv_ok _ (by norm_num : (18.0:ℝ) ≠ 0)]
  simp only [ok_bind]
  have hcpe : c5Action.hiring.cost_per_employee = 0 := rfl
  rw [hcpe, cdiv_zero]
  simp only [error_bind]

set_option maxHeartbeats 8000000 in
/-- Claim C5, amended: for every state, every random stream with draws in
[0,1), and every action bundle with hires = 0 (more generally ≤ 0) or
cost_per_employee ≠ 0, the checked-division step raises no division error:
it returns ok of exactly the total-division step trace. Every division
other than the hiring-ceiling one is guarded inside the code. -/
theorem c5_step_no_div_error_amended (s : EnvState) (a : ActionBundle)
    (g : Rng) (hg : ValidRng g)
    (hh : a.hiring.hires ≤ 0 ∨ a.hiring.cost_per_employee ≠ 0) :
    stepE s a g = Except.ok (stepTrace s a g) := by
  have hu2 : (0:ℝ) ≤ g ((shockPhase s g).2 + 1) := (hg _).1
  have h18 : ∀ x : ℝ, cdiv x 18.0 = Except.ok (x / 18.0) := fun x =>
    cdiv_ok x (by norm_num)
  by_cases hp : 0 < a.hiring.hires
  · have hcpe : a.hiring.cost_per_employee ≠ 0 := by
      rcases hh with h1 | h1
      · exact absurd hp (not_lt.mpr h1)
      · exact h1
    have hcd : ∀ x : ℝ, cdiv x a.hiring.cost_per_employee =
        Except.ok (x / a.hiring.cost_per_employee) := fun x => cdiv_ok x hcpe
    by_cases hpr : 0 < (shockPhase s g).1.price *
        (1 + a.pricing.price_change_pct)
    · have hcp : ∀ x : ℝ, cdiv x ((shockPhase s g).1.price *
          (1 + a.pricing.price_change_pct)) =
          Except.ok (x / ((shockPhase s g).1.price *
            (1 + a.pricing.price_change_pct))) := fun x =>
        cdiv_ok x (ne_of_gt hpr)
      simp [stepE, stepTrace, shockPhaseE_ok, compute_new_mrrE_ok hu2,
        compute_expansion_mrrE_ok, compute_churn_rateE_ok, compute_cacE_ok,
        compute_ltvE_ok, compute_rule_of_40E_ok, compute_rewardE_ok,
        h18, hcd, hcp, hp, hpr]
    · simp [stepE, stepTrace, shockPhaseE_ok, compute_new_mrrE_ok hu2,
        compute_expansion_mrrE_ok, compute_churn_rateE_ok, compute_cacE_ok,
        compute_ltvE_ok, compute_rule_of_40E_ok, compute_rewardE_ok,
        h18, hcd, hp, hpr]
  · by_cases hpr : 0 < (shockPhase s g).1.price *
        (1 + a.pricing.price_change_pct)
    · have hcp : ∀ x : ℝ, cdiv x ((shockPhase s g).1.price *
          (1 + a.pricing.price_change_pct)) =
          Except.ok (x / ((shockPhase s g).1.price *
            (1 + a.pricing.price_change_pct))) := fun x =>
        cdiv_ok x (ne_of_gt hpr)
      simp [stepE, stepTrace, shockPhaseE_ok, compute_new_mrrE_ok hu2,
        compute_expansion_mrrE_ok, compute_churn_rateE_ok, compute_cacE_ok,
        compute_ltvE_ok, compute_rule_of_40E_ok, compute_rewardE_ok,
        h18, hcp, hp, hpr]
    · simp [stepE, stepTrace, shockPhaseE_ok, compute_new_mrrE_ok hu2,
        compute_expansion_mrrE_ok, compute_churn_rateE_ok, compute_cacE_ok,
        compute_ltvE_ok, compute_rule_of_40E_ok, compute_rewardE_ok,
        h18, hp, hpr]

/-- Witness for the amended C5: the no-op bundle (zero hires) on the
constant-1/2 stream runs the whole step without a division error. -/
theorem c5_step_no_div_error_amended_witness :
    ValidRng gHalf ∧
    (noopBundle.hiring.hires ≤ 0 ∨
      noopBundle.hiring.cost_per_employee ≠ 0) ∧
    stepE initialState noopBundle gHalf =
      Except.ok (stepTrace initialState noopBundle gHalf) := by
  have hvg : ValidRng gHalf := by
    intro n
    constructor <;> norm_num [gHalf]
  have hd : noopBundle.hiring.hires ≤ 0 ∨
      noopBundle.hiring.cost_per_employee ≠ 0 :=
    Or.inl (by norm_num [noopBundle])
  exact ⟨hvg, hd,
    c5_step_no_div_error_amended initialState noopBundle gHalf hvg hd⟩

/-- Claim C6 (confirmed): with nonnegative cash at the clamp point, a
positive hire request and a positive cost per employee, a request above the
ceiling floor((cash / 18) / cost_per_employee) results in exactly that many
hires: the one-time deduction is max_hires * cost_per_employee and
headcount grows by exactly max_hires. -/
theorem c6_hiring_clamp_exact (s : EnvState) (a : ActionBundle) (g : Rng)
    (hcash : 0 ≤ (stepTrace s a g).postPricing.cash)
    (hpos : 0 < a.hiring.hires)
    (hcpe : 0 < a.hiring.cost_per_employee)
    (hreq : pyInt ((stepTrace s a g).postPricing.cash / 18.0 /
      a.hiring.cost_per_employee) < a.hiring.hires) :
    (stepTrace s a g).hiresApplied =
      ⌊(stepTrace s a g).postPricing.cash / 18.0 /
        a.hiring.cost_per_employee⌋ ∧
    (stepTrace s a g).one_time_hiring_cost =
      ((⌊(stepTrace s a g).postPricing.cash / 18.0 /
        a.hiring.cost_per_employee⌋ : ℤ) : ℝ) * a.hiring.cost_per_employee ∧
    (stepTrace s a g).newState.headcount =
      s.headcount + ⌊(stepTrace s a g).postPricing.cash / 18.0 /
        a.hiring.cost_per_employee⌋ := by
  have hpy : pyInt ((stepTrace s a g).postPricing.cash / 18.0 /
      a.hiring.cost_per_employee) =
      ⌊(stepTrace s a g).postPricing.cash / 18.0 /
        a.hiring.cost_per_employee⌋ := by
    rw [pyInt, if_pos]
    exact div_nonneg (div_nonneg hcash (by norm_num)) hcpe.le
  have key : (stepTrace s a g).hiresApplied =
      pyInt ((stepTrace s a g).postPricing.cash / 18.0 /
        a.hiring.cost_per_employee) := by
    simp only [stepTrace] at hreq ⊢
    rw [if_pos hpos, if_pos hreq]
  have hcost := stepTrace_one_time s a g
  refine ⟨key.trans hpy, ?_, ?_⟩
  · rw [hcost, key, hpy]
  · rw [stepTrace_newState_headcount, key, hpy]

/-- Witness for C6: from zero-churn state with 309000 cash (360000 at the
clamp point), requesting 5 hires at 10000 each yields exactly
max_hires = 2 hires, a 20000 deduction and headcount 3. -/
theorem c6_hiring_clamp_exact_witness :
    (0 ≤ (stepTrace c6State c6Action gHalf).postPricing.cash ∧
      0 < c6Action.hiring.hires ∧ 0 < c6Action.hiring.cost_per_employee ∧
      pyInt ((stepTrace c6State c6Action gHalf).postPricing.cash / 18.0 /
        c6Action.hiring.cost_per_employee) < c6Action.hiring.hires) ∧
    ((stepTrace c6State c6Action gHalf).hiresApplied =
      ⌊(stepTrace c6State c6Action gHalf).postPricing.cash / 18.0 /
        c6Action.hiring.cost_per_employee⌋ ∧
     (stepTrace c6State c6Action gHalf).one_time_hiring_cost =
      ((⌊(stepTrace c6State c6Action gHalf).postPricing.cash / 18.0 /
        c6Action.hiring.cost_per_employee⌋ : ℤ) : ℝ) *
        c6Action.hiring.cost_per_employee ∧
     (stepTrace c6State c6Action gHalf).newState.headcount =
      c6State.headcount +
        ⌊(stepTrace c6State c6Action gHalf).postPricing.cash / 18.0 /
          c6Action.hiring.cost_per_employee⌋) := by
  have e1 : (stepTrace c6State c6Action gHalf).postPricing.cash = 360000 := by
    norm_num [stepTrace, shockPhase, interest_rate_shock,
      consumer_confidence_shock, competitive_entry_shock,
      apply_recession_cascade, apply_hysteresis, apply_recovery,
      compute_new_mrr, hill_response, compute_expansion_mrr,
      compute_churn_rate, apply_pricing_effect, apply_hiring_cost, uniform,
      pyInt, gHalf, c6State, c6Action, noopBundle, initialState,
      INITIAL_CASH, BASE_CAC, INITIAL_PRODUCT_QUALITY, Real.exp_zero]
  have hp1 : 0 ≤ (stepTrace c6State c6Action gHalf).postPricing.cash := by
    rw [e1]; norm_num
  have hp2 : (0:ℤ) < c6Action.hiring.hires := by
    norm_num [c6Action, noopBundle]
  have hp3 : (0:ℝ) < c6Action.hiring.cost_per_employee := by
    norm_num [c6Action, noopBundle]
  have hp4 : pyInt ((stepTrace c6State c6Action gHalf).postPricing.cash /
      18.0 / c6Action.hiring.cost_per_employee) < c6Action.hiring.hires := by
    rw [e1]
    norm_num [c6Action, noopBundle, pyInt, Int.floor_ofNat]
  exact ⟨⟨hp1, hp2, hp3, hp4⟩,
    c6_hiring_clamp_exact c6State c6Action gHalf hp1 hp2 hp3 hp4⟩

/-- Claim C7, counterexample: from the zero-churn state with cash = 100 and
the no-op bundle, the step's total burn is 8000 (salaries alone), which
exceeds 100, yet the step does not terminate: the collected MRR of 51000
leaves cash at 43100. -/
theorem c7_burn_over_100_not_terminated_cex :
    c7State.cash = 100 ∧
    100 < (stepTrace c7State noopBundle gHalf).rule40_burn ∧
    ¬ (stepTrace c7State noopBundle gHalf).terminated := by
  refine ⟨rfl, ?_, ?_⟩ <;>
  norm_num [stepTrace, shockPhase, interest_rate_shock,
    consumer_confidence_shock, competitive_entry_shock,
    apply_recession_cascade, apply_hysteresis, apply_recovery,
    compute_new_mrr, hill_response, compute_expansion_mrr, compute_churn_rate,
    apply_pricing_effect, apply_hiring_cost, uniform, pyInt, gHalf, c7State,
    noopBundle, initialState, INITIAL_CASH, BASE_CAC,
    INITIAL_PRODUCT_QUALITY, Real.exp_zero]

/-- Claim C7, amended: from cash = 100, one step terminates whenever the
step's total burn exceeds 100 plus the MRR collected in that step. -/
theorem c7_termination_amended (s : EnvState) (a : ActionBundle) (g : Rng)
    (hcash : s.cash = 100)
    (hburn : 100 + (stepTrace s a g).mrrUpdated <
      (stepTrace s a g).rule40_burn) :
    (stepTrace s a g).terminated := by
  rw [stepTrace_terminated_iff, stepTrace_newState_cash, hcash]
  linarith

/-- Witness for the amended C7: cash = 100, R&D spend 200000; burn 208000
exceeds 100 + 51500 collected, and the step terminates. -/
theorem c7_termination_amended_witness :
    (c7State.cash = 100 ∧
     100 + (stepTrace c7State c7WitAction gHalf).mrrUpdated <
       (stepTrace c7State c7WitAction gHalf).rule40_burn) ∧
    (stepTrace c7State c7WitAction gHalf).terminated := by
  have h1 : c7State.cash = 100 := rfl
  have h2 : 100 + (stepTrace c7State c7WitAction gHalf).mrrUpdated <
      (stepTrace c7State c7WitAction gHalf).rule40_burn := by
    norm_num [stepTrace, shockPhase, interest_rate_shock,
      consumer_confidence_shock, competitive_entry_shock,
      apply_recession_cascade, apply_hysteresis, apply_recovery,
      compute_new_mrr, hill_response, compute_expansion_mrr,
      compute_churn_rate, apply_pricing_effect, apply_hiring_cost, uniform,
      pyInt, gHalf, c7State, c7WitAction, noopBundle, initialState,
      INITIAL_CASH, BASE_CAC, INITIAL_PRODUCT_QUALITY, Real.exp_zero]
  exact ⟨⟨h1, h2⟩, c7_termination_amended c7State c7WitAction gHalf h1 h2⟩

/-- Claim C8, counterexample: at prev_mrr = 1/2 (positive but below 1.0),
new_mrr = 2 and zero burn, the code returns 300 (it uses 1/2 as the
denominator), while the claimed floor-at-1.0 formula returns 100. -/
theorem c8_rule40_floor_cex :
    compute_rule_of_40 (1/2) 2 0 = 300 ∧
    rule_of_40_claimed (1/2) 2 0 = 100 := by
  constructor <;>
    norm_num [compute_rule_of_40, rule_of_40_claimed, max_def]

/-- Claim C8, amended: compute_rule_of_40 equals the growth + margin
formula in which an input MRR is replaced by 1.0 only when it is
nonpositive (positive values below 1.0 are used as they are). -/
theorem c8_rule40_amended (p n b : ℝ) :
    compute_rule_of_40 p n b = rule_of_40_floor_nonpos p n b := by
  have e1 : (if p ≤ 0 then (1.0:ℝ) else p) = (if 0 < p then p else 1) := by
    split_ifs <;> linarith
  have e2 : (if n ≤ 0 then (1.0:ℝ) else n) = (if 0 < n then n else 1) := by
    split_ifs <;> linarith
  rw [compute_rule_of_40, rule_of_40_floor_nonpos, e1, e2]
  ring

/-- Claim C9, counterexample: at the schema-valid state with
innovation_factor 0.9995 (within [0,1]), one hysteresis+recovery pass
yields 1.0005, strictly above 1.0. -/
theorem c9_innovation_exceeds_one_cex :
    c9State.innovation_factor ≤ 1 ∧
    1 < (apply_recovery (apply_hysteresis c9State)).innovation_factor := by
  constructor
  · norm_num [c9State, initialState]
  · norm_num [apply_recovery, apply_hysteresis, c9State, initialState,
      max_def]

/-- Claim C9, amended: from any innovation_factor in [0, 1.001), one
hysteresis+recovery pass keeps it in [0, 1.001) (it can exceed 1.0 by
strictly less than 0.001), and it changes only by the defined deltas:
unchanged, times 0.95, plus 0.001, or times 0.95 then plus 0.001. -/
theorem c9_innovation_bounds_amended (s : EnvState)
    (h0 : 0 ≤ s.innovation_factor) (h1 : s.innovation_factor < 1.001) :
    (0 ≤ (apply_recovery (apply_hysteresis s)).innovation_factor ∧
      (apply_recovery (apply_hysteresis s)).innovation_factor < 1.001) ∧
    ((apply_recovery (apply_hysteresis s)).innovation_factor
        = s.innovation_factor ∨
     (apply_recovery (apply_hysteresis s)).innovation_factor
        = s.innovation_factor * 0.95 ∨
     (apply_recovery (apply_hysteresis s)).innovation_factor
        = s.innovation_factor + 0.001 ∨
     (apply_recovery (apply_hysteresis s)).innovation_factor
        = s.innovation_factor * 0.95 + 0.001) := by
  have hr := rec_innovation (apply_hysteresis s)
  rcases hys_innovation s with hh | hh <;> rw [hh] at hr
  · by_cases hc : s.innovation_factor < 1.0
    · rw [hr, if_pos hc]
      exact ⟨⟨by linarith, by linarith⟩, Or.inr (Or.inr (Or.inl rfl))⟩
    · rw [hr, if_neg hc]
      exact ⟨⟨h0, h1⟩, Or.inl rfl⟩
  · have h95 : (0:ℝ) ≤ s.innovation_factor * 0.95 :=
      mul_nonneg h0 (by norm_num)
    by_cases hc : s.innovation_factor * 0.95 < 1.0
    · rw [hr, if_pos hc]
      exact ⟨⟨by linarith, by linarith⟩, Or.inr (Or.inr (Or.inr rfl))⟩
    · rw [hr, if_neg hc]
      exact ⟨⟨h95, by linarith⟩, Or.inr (Or.inl rfl)⟩

/-- Witness for the amended C9 at the initial state. -/
theorem c9_innovation_bounds_amended_witness :
    (0 ≤ initialState.innovation_factor ∧
      initialState.innovation_factor < 1.001) ∧
    ((0 ≤ (apply_recovery (apply_hysteresis initialState)).innovation_factor ∧
      (apply_recovery (apply_hysteresis initialState)).innovation_factor
        < 1.001) ∧
     ((apply_recovery (apply_hysteresis initialState)).innovation_factor
        = initialState.innovation_factor ∨
      (apply_recovery (apply_hysteresis initialState)).innovation_factor
        = initialState.innovation_factor * 0.95 ∨
      (apply_recovery (apply_hysteresis initialState)).innovation_factor
        = initialState.innovation_factor + 0.001 ∨
      (apply_recovery (apply_hysteresis initialState)).innovation_factor
        = initialState.innovation_factor * 0.95 + 0.001)) :=
  ⟨⟨by norm_num [initialState], by norm_num [initialState]⟩,
    c9_innovation_bounds_amended initialState (by norm_num [initialState])
      (by norm_num [initialState])⟩

/-- Claim C10 (confirmed): when the post-pricing price is ≤ 0 at the
unit-economics refresh point, the CAC field keeps its pre-step value
(stale), while LTV is still recomputed from the refreshed price and the
step's churn rate. -/
theorem c10_stale_cac_fresh_ltv (s : EnvState) (a : ActionBundle) (g : Rng)
    (hprice : (stepTrace s a g).postPricing.price ≤ 0) :
    (stepTrace s a g).newState.cac = s.cac ∧
    (stepTrace s a g).newState.ltv =
      compute_ltv (stepTrace s a g).postPricing.price
        (stepTrace s a g).churn_rate :=
  ⟨stepTrace_newState_cac_stale s a g hprice, stepTrace_newState_ltv s a g⟩

/-- Witness for C10: a -100% price change drives the price to 0; CAC stays
at its pre-step value 50 and LTV is recomputed. -/
theorem c10_stale_cac_fresh_ltv_witness :
    (stepTrace initialState c10Action gHalf).postPricing.price ≤ 0 ∧
    ((stepTrace initialState c10Action gHalf).newState.cac =
        initialState.cac ∧
     (stepTrace initialState c10Action gHalf).newState.ltv =
       compute_ltv (stepTrace initialState c10Action gHalf).postPricing.price
         (stepTrace initialState c10Action gHalf).churn_rate) := by
  have hp : (stepTrace initialState c10Action gHalf).postPricing.price
      ≤ 0 := by
    norm_num [stepTrace, shockPhase, interest_rate_shock,
      consumer_confidence_shock, competitive_entry_shock,
      apply_recession_cascade, apply_hysteresis, apply_recovery,
      compute_new_mrr, hill_response, compute_expansion_mrr,
      compute_churn_rate, apply_pricing_effect, apply_hiring_cost, uniform,
      pyInt, gHalf, c10Action, noopBundle, initialState, INITIAL_CASH,
      BASE_CAC, INITIAL_PRODUCT_QUALITY, Real.exp_zero]
  exact ⟨hp, c10_stale_cac_fresh_ltv initialState c10Action gHalf hp⟩

end Startup
